import Mathlib

/-!
Verification of the free-throw-predictor game scraper
(`src/game_scraper.py`) against its specification.

The Python module has two stages:
* `get_game_info` / `get_table_info`: fetch a game-log page, extract per-row
  date / home-away / opponent fields, and convert the dash-separated date
  text into a list of integers;
* `scrape_games`: iterate the parsed records, throttle with a fixed sleep,
  and call an external play-by-play client writing one CSV file per game.

The embedding below is shallow: the HTTP response and the parsed HTML rows
are explicit data, and the exporter is a pure function from its inputs to
the ordered list of side effects it performs (directory creation, sleeps,
progress prints, client calls with their output path, logged exceptions)
together with an `Except` describing whether an uncaught Python exception
propagates.
-/

namespace GameScraper

/-- The team enumeration of the external client
(`basketball_reference_web_scraper.data.Team`); only the 30 members used by
`dict_teams` are modelled. -/
inductive Team
  | ATLANTA_HAWKS
  | BOSTON_CELTICS
  | BROOKLYN_NETS
  | CHICAGO_BULLS
  | CHARLOTTE_HORNETS
  | CLEVELAND_CAVALIERS
  | DALLAS_MAVERICKS
  | DENVER_NUGGETS
  | DETROIT_PISTONS
  | GOLDEN_STATE_WARRIORS
  | HOUSTON_ROCKETS
  | INDIANA_PACERS
  | LOS_ANGELES_CLIPPERS
  | LOS_ANGELES_LAKERS
  | MEMPHIS_GRIZZLIES
  | MIAMI_HEAT
  | MILWAUKEE_BUCKS
  | MINNESOTA_TIMBERWOLVES
  | NEW_ORLEANS_PELICANS
  | NEW_YORK_KNICKS
  | OKLAHOMA_CITY_THUNDER
  | ORLANDO_MAGIC
  | PHILADELPHIA_76ERS
  | PHOENIX_SUNS
  | PORTLAND_TRAIL_BLAZERS
  | SACRAMENTO_KINGS
  | SAN_ANTONIO_SPURS
  | TORONTO_RAPTORS
  | UTAH_JAZZ
  | WASHINGTON_WIZARDS
deriving DecidableEq, Repr

/-- One `<tr>` of the game-log table body, with the attributes the scraper
reads: the `class` attribute list (`row.get("class", [])`) and the text of
the three `<td>` cells found by their `data-stat` markers. -/
structure Row where
  classes : List String
  date_game : String
  opp_id : String
  game_location : String
deriving DecidableEq, Repr

/-- One entry of `get_table_info`'s output list `[date, home_game, opponent]`
(all three are strings at that stage). -/
structure RawGame where
  date : String
  location : String
  opponent : String
deriving DecidableEq, Repr

/-- A fully parsed record `[[year, month, day], home/away, opponent]` as
produced by `get_game_info` and consumed by `scrape_games`.  The date is a
list of integers because the Python code stores whatever
`[int(i) for i in row[0].split("-")]` yields, of any length. -/
structure GameData where
  date : List Int
  location : String
  opponent : String
deriving DecidableEq, Repr

/-- Result of `requests.get`: the status code, the requested URL, and the
rows of the `tbody` of the `pgl_basic` table when `BeautifulSoup` can locate
it (`none` models `soup.find` returning `None`).  `BeautifulSoup(...)`
itself never returns `None`, so the dead `soup is None` branch of the code
is not modelled. -/
structure Response where
  status_code : Nat
  url : String
  table : Option (List Row)
deriving Repr

/-- Errors that `get_game_info` can raise:
`tableNotFound` is `ValueError("Table not found, ...")`,
`dateParse` is the `ValueError` raised by `int` on a non-numeric date
component. -/
inductive ScrapeErr
  | tableNotFound
  | dateParse
deriving DecidableEq, Repr

/-- Python exceptions that can escape `scrape_games`:
`valueError` is an explicit `raise ValueError(msg)`, `unpackError` the
`ValueError` from `year, month, day = game[0]` when the date list does not
have exactly three elements. -/
inductive PyExn
  | valueError (msg : String)
  | unpackError
deriving DecidableEq, Repr

/-- What `logger.exception` recorded inside the export loop's `except`
block: the `KeyError` from `dict_teams[game[2]]`, an exception raised by
`client.play_by_play`, or the `raise ValueError("Invalid home/away status")`
of the defensive branch. -/
inductive ErrKind
  | keyError (key : String)
  | clientError
  | invalidStatus
deriving DecidableEq, Repr

/-- The observable side effects of `scrape_games`, in order. -/
inductive Event
  | mkdir (path : String)
  | sleep (secs : Int)
  | info (msg : String)
  | exportCsv (home_team : Team) (year month day : Int) (path : String)
  | logError (e : ErrKind)
deriving DecidableEq, Repr

/-- The external play-by-play client as a black box: `true` means
`client.play_by_play(home_team, year, month, day, ...)` succeeds and writes
its CSV file, `false` that it raises. -/
def ClientFun : Type := Team → Int → Int → Int → Bool

def theadClass : String := "thead"

def atSign : String := "@"

/-- Field extraction for one non-header row: the date text, the
`"Home"`-unless-the-location-cell-is-`"@"` status, and the opponent code. -/
def extractRow (r : Row) : RawGame :=
  { date := r.date_game
    location := if r.game_location == atSign then "Away" else "Home"
    opponent := r.opp_id }

/-- `get_table_info`: skip rows whose `class` list contains `"thead"`, and
extract `[date, home_game, opponent]` from each remaining row, preserving
order. -/
def get_table_info : List Row → List RawGame
  | [] => []
  | r :: rs =>
      if r.classes.contains theadClass then get_table_info rs
      else extractRow r :: get_table_info rs

/-- All-decimal-digits string to its value; `none` when empty or when some
character is not a digit. -/
def digitsToNat (cs : List Char) : Option Nat :=
  if cs = [] then none
  else if cs.all Char.isDigit then
    some (cs.foldl (fun a c => a * 10 + (c.toNat - 48)) 0)
  else none

/-- Python's `int(s)` on the strings that arise here: an optional sign
followed by at least one decimal digit (whitespace/underscore handling of
CPython is irrelevant to the scraped fields). `none` models the
`ValueError` that `int` raises otherwise. -/
def parsePyInt (s : String) : Option Int :=
  match s.data with
  | [] => none
  | '-' :: cs => (digitsToNat cs).map (fun n => -(n : Int))
  | '+' :: cs => (digitsToNat cs).map (fun n => (n : Int))
  | cs => (digitsToNat cs).map (fun n => (n : Int))

/-- Run `f` across a list, failing at the first `none`, as a Python list
comprehension over a fallible function does. -/
def mapOpt (f : α → Option β) : List α → Option (List β)
  | [] => some []
  | x :: xs =>
      match f x, mapOpt f xs with
      | some y, some ys => some (y :: ys)
      | _, _ => none

/-- Split a character list at every occurrence of `sep`, keeping empty
groups, exactly as Python's `str.split` with an explicit one-character
separator does (`"".split("-") == [""]`, `"-".split("-") == ["", ""]`). -/
def splitOnChar (sep : Char) : List Char → List (List Char)
  | [] => [[]]
  | c :: cs =>
      let r := splitOnChar sep cs
      if c = sep then [] :: r
      else
        match r with
        | [] => [[c]]
        | g :: gs => (c :: g) :: gs

/-- Python's `s.split(sep)` for a one-character separator. -/
def pySplit (s : String) (sep : Char) : List String :=
  (splitOnChar sep s.data).map (fun cs => String.mk cs)

/-- `[int(i) for i in s.split("-")]`: every dash-separated component must be
integer-parsable; the number of components is whatever the split yields. -/
def parseDate (s : String) : Option (List Int) :=
  mapOpt parsePyInt (pySplit s '-')

/-- The in-place date conversion loop of `get_game_info`, over the whole row
list; the first unparsable date raises. -/
def convertDates (rows : List RawGame) : Option (List GameData) :=
  mapOpt (fun r => (parseDate r.date).map
    (fun ds => { date := ds, location := r.location, opponent := r.opponent })) rows

/-- The log line written when the response status is 429. -/
def rateLimitMsg (url : String) (code : Nat) : String :=
  s!"Too many requests, check URL: {url}, Status code: {code}"

/-- `get_game_info`: returns the log lines it wrote and either the parsed
record list or the exception it raised.  Note that on a 429 status the code
only logs and then **constructs** `requests.exceptions.HTTPError(...)`
without raising it, so execution falls through to the parsing stage. -/
def get_game_info (resp : Response) : List String × Except ScrapeErr (List GameData) :=
  let u := resp.url
  let c := resp.status_code
  let log0 : List String :=
    if resp.status_code == 429 then [rateLimitMsg u c] else []
  match resp.table with
  | none =>
      (log0 ++ ["Table not found, check the page structure or URL"],
        Except.error ScrapeErr.tableNotFound)
  | some trs =>
      match convertDates (get_table_info trs) with
      | none => (log0, Except.error ScrapeErr.dateParse)
      | some gs => (log0, Except.ok gs)

/-- The `dict_teams` mapping from basketball-reference 3-letter codes to the
client's team identifiers. -/
def dict_teams (code : String) : Option Team :=
  match code with
  | "ATL" => some Team.ATLANTA_HAWKS
  | "BOS" => some Team.BOSTON_CELTICS
  | "BRK" => some Team.BROOKLYN_NETS
  | "CHI" => some Team.CHICAGO_BULLS
  | "CHO" => some Team.CHARLOTTE_HORNETS
  | "CLE" => some Team.CLEVELAND_CAVALIERS
  | "DAL" => some Team.DALLAS_MAVERICKS
  | "DEN" => some Team.DENVER_NUGGETS
  | "DET" => some Team.DETROIT_PISTONS
  | "GSW" => some Team.GOLDEN_STATE_WARRIORS
  | "HOU" => some Team.HOUSTON_ROCKETS
  | "IND" => some Team.INDIANA_PACERS
  | "LAC" => some Team.LOS_ANGELES_CLIPPERS
  | "LAL" => some Team.LOS_ANGELES_LAKERS
  | "MEM" => some Team.MEMPHIS_GRIZZLIES
  | "MIA" => some Team.MIAMI_HEAT
  | "MIL" => some Team.MILWAUKEE_BUCKS
  | "MIN" => some Team.MINNESOTA_TIMBERWOLVES
  | "NOP" => some Team.NEW_ORLEANS_PELICANS
  | "NYK" => some Team.NEW_YORK_KNICKS
  | "OKC" => some Team.OKLAHOMA_CITY_THUNDER
  | "ORL" => some Team.ORLANDO_MAGIC
  | "PHI" => some Team.PHILADELPHIA_76ERS
  | "PHO" => some Team.PHOENIX_SUNS
  | "POR" => some Team.PORTLAND_TRAIL_BLAZERS
  | "SAC" => some Team.SACRAMENTO_KINGS
  | "SAS" => some Team.SAN_ANTONIO_SPURS
  | "TOR" => some Team.TORONTO_RAPTORS
  | "UTA" => some Team.UTAH_JAZZ
  | "WAS" => some Team.WASHINGTON_WIZARDS
  | _ => none

/-- The `num_games` argument as Python sees it: `None`, an `int`, or a value
of any other type (which `isinstance(num_games, int)` rejects). -/
inductive NumGames
  | noneArg
  | intArg (n : Int)
  | otherArg
deriving DecidableEq, Repr

/-- `xs[:n]` for an integer `n` (Python slice semantics, including the
negative-index form that keeps all but the last `|n|` elements). -/
def pySliceTo (xs : List α) (n : Int) : List α :=
  if 0 ≤ n then xs.take n.toNat else xs.take (xs.length - (-n).toNat)

/-- Line 157's `games_to_scrape = game_data if game_data is None else
game_data[:num_games]` for a (non-`None`) record list; `otherArg` never
reaches this point because validation raised first. -/
def games_to_scrape (game_data : List GameData) (num_games : NumGames) : List GameData :=
  match num_games with
  | NumGames.noneArg => game_data
  | NumGames.intArg n => pySliceTo game_data n
  | NumGames.otherArg => game_data

def pbpDir : String := "pbp_games"

def configErrMsg : String := "Number of games must be an integer or default value None"

/-- The per-game progress line printed before the client call. -/
def writeMsg (y m d : Int) : String :=
  s!"Writing play-by-play for Cavs game on {y}-{m}-{d} to CSV file"

/-- The CSV path of the `Home` branch. -/
def homePath (y m d : Int) : String :=
  s!"pbp_games/{y}_{m}_{d}_CLE_PBP_HOME.csv"

/-- The CSV path of the `Away` branch (note the literal `CLE`). -/
def awayPath (y m d : Int) : String :=
  s!"pbp_games/{y}_{m}_{d}_CLE_PBP_AWAY.csv"

/-- The `try` block of one loop iteration: branch on `game[1]`, look up
`dict_teams[game[2]]` for away games, call the client; every exception is
caught by the `except` clause and logged, so the result is always a plain
event list. -/
def tryBlock (client : ClientFun) (game : GameData) (y m d : Int) : List Event :=
  if game.location == "Home" then
    if client Team.CLEVELAND_CAVALIERS y m d then
      [Event.exportCsv Team.CLEVELAND_CAVALIERS y m d (homePath y m d)]
    else [Event.logError ErrKind.clientError]
  else if game.location == "Away" then
    match dict_teams game.opponent with
    | none => [Event.logError (ErrKind.keyError game.opponent)]
    | some t =>
        if client t y m d then
          [Event.exportCsv t y m d (awayPath y m d)]
        else [Event.logError ErrKind.clientError]
  else
    [Event.logError ErrKind.invalidStatus]

/-- One loop iteration: `year, month, day = game[0]` (outside the `try`, so
its failure propagates), then the sleep, the progress print, and the `try`
block. -/
def processGame (client : ClientFun) (interval : Int) (game : GameData) :
    Except PyExn (List Event) :=
  match game.date with
  | [y, m, d] =>
      Except.ok (Event.sleep interval :: Event.info (writeMsg y m d) ::
        tryBlock client game y m d)
  | _ => Except.error PyExn.unpackError

/-- The export loop over the truncated record list: events accumulate in
order; an uncaught exception aborts the rest of the loop. -/
def runGames (client : ClientFun) (interval : Int) :
    List GameData → List Event × Except PyExn Unit
  | [] => ([], Except.ok ())
  | g :: gs =>
      match processGame client interval g with
      | Except.error e => ([], Except.error e)
      | Except.ok evs =>
          let rest := runGames client interval gs
          (evs ++ rest.1, rest.2)

/-- `scrape_games`: validate `num_games`, truncate, create the output
directory, then run the loop.  Returns the ordered side effects and either
`()` or the exception that escaped. -/
def scrape_games (client : ClientFun) (game_data : List GameData)
    (num_games : NumGames) (scrape_interval : Int) :
    List Event × Except PyExn Unit :=
  match num_games with
  | NumGames.otherArg => ([], Except.error (PyExn.valueError configErrMsg))
  | _ =>
      let games := games_to_scrape game_data num_games
      let run := runGames client scrape_interval games
      (Event.mkdir pbpDir :: run.1, run.2)

/-- A client stub that always succeeds (the test-fixture stub of §8). -/
def alwaysOkClient : ClientFun := fun _ _ _ _ => true

/-- The events of one well-formed loop iteration (used to describe the trace
of a completed run). -/
def okEvents (client : ClientFun) (interval : Int) (g : GameData) : List Event :=
  match g.date with
  | [y, m, d] =>
      Event.sleep interval :: Event.info (writeMsg y m d) :: tryBlock client g y m d
  | _ => []

/-- Whether an event is a throttling sleep. -/
def isSleep : Event → Bool
  | Event.sleep _ => true
  | _ => false

/-- Number of sleep events in a trace: exactly one per visited record, so
this counts how many records the loop processed. -/
def countSleeps (es : List Event) : Nat := (es.filter isSleep).length

/-- The filename the specification claims for an away game: the opponent's
code in the `homeFranchiseCode` slot with suffix `AWAY`.  Stated from the
spec's words, to compare with what the code produces. -/
def spec_away_filename (g : GameData) (y m d : Int) : String :=
  let o := g.opponent
  s!"pbp_games/{y}_{m}_{d}_{o}_PBP_AWAY.csv"

/-! ### Helper lemmas -/

theorem mapOpt_eq_none {f : α → Option β} {xs : List α} :
    mapOpt f xs = none ↔ ∃ x ∈ xs, f x = none := by
  induction xs with
  | nil => simp [mapOpt]
  | cons x xs ih =>
      cases hx : f x with
      | none =>
          cases hxs : mapOpt f xs with
          | none =>
              simp only [mapOpt, hx, hxs]
              exact ⟨fun _ => ⟨x, List.mem_cons_self x xs, hx⟩, fun _ => trivial⟩
          | some ys =>
              simp only [mapOpt, hx, hxs]
              exact ⟨fun _ => ⟨x, List.mem_cons_self x xs, hx⟩, fun _ => trivial⟩
      | some y =>
          cases hxs : mapOpt f xs with
          | none =>
              simp only [mapOpt, hx, hxs]
              constructor
              · intro _
                rcases ih.mp hxs with ⟨a, ha, hfa⟩
                exact ⟨a, List.mem_cons_of_mem x ha, hfa⟩
              · intro _; trivial
          | some ys =>
              simp only [mapOpt, hx, hxs]
              constructor
              · intro hcon; exact absurd hcon (by simp)
              · rintro ⟨a, ha, hfa⟩
                rcases List.mem_cons.mp ha with rfl | hmem
                · rw [hx] at hfa; exact absurd hfa (by simp)
                · have hn : mapOpt f xs = none := ih.mpr ⟨a, hmem, hfa⟩
                  rw [hxs] at hn; exact absurd hn (by simp)

theorem mapOpt_some_length {f : α → Option β} {xs : List α} :
    ∀ {ys : List β}, mapOpt f xs = some ys → ys.length = xs.length := by
  induction xs with
  | nil =>
      intro ys h
      simp only [mapOpt, Option.some.injEq] at h
      subst h; rfl
  | cons x xs ih =>
      intro ys h
      cases hx : f x with
      | none =>
          simp only [mapOpt, hx] at h
          exact Option.noConfusion h
      | some y =>
          cases hxs : mapOpt f xs with
          | none =>
              simp only [mapOpt, hx, hxs] at h
              exact Option.noConfusion h
          | some zs =>
              simp only [mapOpt, hx, hxs, Option.some.injEq] at h
              subst h
              simp [ih hxs]

theorem mapOpt_some_mem {f : α → Option β} {xs : List α} :
    ∀ {ys : List β}, mapOpt f xs = some ys →
      ∀ y ∈ ys, ∃ x ∈ xs, f x = some y := by
  induction xs with
  | nil =>
      intro ys h
      simp only [mapOpt, Option.some.injEq] at h
      subst h
      intro y hy
      exact absurd hy (List.not_mem_nil y)
  | cons x xs ih =>
      intro ys h y hy
      cases hx : f x with
      | none =>
          simp only [mapOpt, hx] at h
          exact Option.noConfusion h
      | some z =>
          cases hxs : mapOpt f xs with
          | none =>
              simp only [mapOpt, hx, hxs] at h
              exact Option.noConfusion h
          | some zs =>
              simp only [mapOpt, hx, hxs, Option.some.injEq] at h
              subst h
              rcases List.mem_cons.mp hy with rfl | hmem
              · exact ⟨x, List.mem_cons_self x xs, hx⟩
              · rcases ih hxs y hmem with ⟨a, ha, hfa⟩
                exact ⟨a, List.mem_cons_of_mem x ha, hfa⟩

theorem get_table_info_eq (rows : List Row) :
    get_table_info rows =
      (rows.filter (fun r => !(r.classes.contains theadClass))).map extractRow := by
  induction rows with
  | nil => rfl
  | cons r rs ih =>
      rw [List.filter_cons]
      simp only [get_table_info]
      cases h : r.classes.contains theadClass with
      | true => simp [ih]
      | false => simp [ih]

theorem get_table_info_length (rows : List Row) :
    (get_table_info rows).length =
      rows.length - (rows.filter (fun r => r.classes.contains theadClass)).length := by
  induction rows with
  | nil => rfl
  | cons r rs ih =>
      rw [List.filter_cons]
      simp only [get_table_info]
      cases h : r.classes.contains theadClass with
      | true => simp [ih]
      | false =>
          simp [ih]
          have hle : (rs.filter (fun r => decide (theadClass ∈ r.classes))).length ≤
              rs.length := List.length_filter_le _ _
          omega

theorem processGame_ok (client : ClientFun) (i : Int) (g : GameData)
    (h : g.date.length = 3) :
    processGame client i g = Except.ok (okEvents client i g) := by
  rcases g with ⟨date, loc, opp⟩
  match date with
  | [y, m, d] => rfl
  | [] => simp at h
  | [a] => simp at h
  | [a, b] => simp at h
  | a :: b :: c :: e :: rest => simp at h

theorem runGames_wf (client : ClientFun) (i : Int) (gs : List GameData)
    (h : ∀ g ∈ gs, g.date.length = 3) :
    runGames client i gs = ((gs.map (okEvents client i)).flatten, Except.ok ()) := by
  induction gs with
  | nil => rfl
  | cons g gs ih =>
      have hg : g.date.length = 3 := h g (List.mem_cons_self g gs)
      have hrest : ∀ x ∈ gs, x.date.length = 3 :=
        fun x hx => h x (List.mem_cons_of_mem g hx)
      simp [runGames, processGame_ok client i g hg, ih hrest]

theorem countSleeps_append (a b : List Event) :
    countSleeps (a ++ b) = countSleeps a + countSleeps b := by
  simp [countSleeps, List.filter_append]

theorem countSleeps_tryBlock (client : ClientFun) (g : GameData) (y m d : Int) :
    countSleeps (tryBlock client g y m d) = 0 := by
  unfold tryBlock
  split
  · split <;> rfl
  · split
    · split
      · rfl
      · split <;> rfl
    · rfl

theorem countSleeps_okEvents (client : ClientFun) (i : Int) (g : GameData)
    (h : g.date.length = 3) :
    countSleeps (okEvents client i g) = 1 := by
  rcases g with ⟨date, loc, opp⟩
  match date with
  | [y, m, d] =>
      show countSleeps (Event.sleep i :: Event.info (writeMsg y m d) ::
        tryBlock client ⟨[y, m, d], loc, opp⟩ y m d) = 1
      have := countSleeps_tryBlock client ⟨[y, m, d], loc, opp⟩ y m d
      simp [countSleeps, isSleep, List.filter] at this ⊢
      exact this
  | [] => simp at h
  | [a] => simp at h
  | [a, b] => simp at h
  | a :: b :: c :: e :: rest => simp at h

theorem countSleeps_join_map (client : ClientFun) (i : Int) (gs : List GameData)
    (h : ∀ g ∈ gs, g.date.length = 3) :
    countSleeps ((gs.map (okEvents client i)).flatten) = gs.length := by
  induction gs with
  | nil => rfl
  | cons g gs ih =>
      have hg : g.date.length = 3 := h g (List.mem_cons_self g gs)
      have hrest : ∀ x ∈ gs, x.date.length = 3 :=
        fun x hx => h x (List.mem_cons_of_mem g hx)
      simp [List.map_cons, List.flatten_cons, countSleeps_append,
        countSleeps_okEvents client i g hg, ih hrest]
      omega

theorem pySliceTo_nil (n : Int) : pySliceTo ([] : List α) n = [] := by
  unfold pySliceTo
  split <;> simp

theorem tryBlock_no_invalid (client : ClientFun) (g : GameData) (y m d : Int)
    (hloc : g.location = "Home" ∨ g.location = "Away") :
    Event.logError ErrKind.invalidStatus ∉ tryBlock client g y m d := by
  unfold tryBlock
  rcases hloc with h | h <;> rw [h]
  · by_cases hc : client Team.CLEVELAND_CAVALIERS y m d = true <;> simp [hc]
  · cases hm : dict_teams g.opponent with
    | none => simp [hm]
    | some t =>
        by_cases hc : client t y m d = true <;> simp [hm, hc]

theorem countSleeps_cons_mkdir (p : String) (es : List Event) :
    countSleeps (Event.mkdir p :: es) = countSleeps es := by
  simp [countSleeps, List.filter_cons, isSleep]

/-- For a non-`otherArg` count, the loop visits exactly the truncated list:
one sleep per visited record. -/
theorem countSleeps_scrape (client : ClientFun) (i : Int) (gd : List GameData)
    (ng : NumGames) (hng : ng ≠ NumGames.otherArg)
    (hwf : ∀ g ∈ games_to_scrape gd ng, g.date.length = 3) :
    countSleeps (scrape_games client gd ng i).1 = (games_to_scrape gd ng).length := by
  cases ng with
  | otherArg => exact absurd rfl hng
  | noneArg =>
      show countSleeps (Event.mkdir pbpDir ::
        (runGames client i (games_to_scrape gd NumGames.noneArg)).1) = _
      rw [countSleeps_cons_mkdir, runGames_wf client i _ hwf]
      exact countSleeps_join_map client i _ hwf
  | intArg n =>
      show countSleeps (Event.mkdir pbpDir ::
        (runGames client i (games_to_scrape gd (NumGames.intArg n))).1) = _
      rw [countSleeps_cons_mkdir, runGames_wf client i _ hwf]
      exact countSleeps_join_map client i _ hwf

/-- A record whose status is neither `"Home"` nor `"Away"` hits the
defensive `raise ValueError` branch, which the `except` clause logs. -/
theorem okEvents_invalid (client : ClientFun) (i : Int) (g : GameData)
    (h3 : g.date.length = 3) (h1 : g.location ≠ "Home") (h2 : g.location ≠ "Away") :
    Event.logError ErrKind.invalidStatus ∈ okEvents client i g := by
  rcases g with ⟨date, loc, opp⟩
  simp only at h1 h2
  match date with
  | [y, m, d] =>
      show Event.logError ErrKind.invalidStatus ∈
        Event.sleep i :: Event.info (writeMsg y m d) ::
          tryBlock client ⟨[y, m, d], loc, opp⟩ y m d
      apply List.mem_cons_of_mem
      apply List.mem_cons_of_mem
      unfold tryBlock
      rw [if_neg (by simp only [beq_iff_eq]; exact h1),
        if_neg (by simp only [beq_iff_eq]; exact h2)]
      exact List.mem_singleton.mpr rfl
  | [] => simp at h3
  | [a] => simp at h3
  | [a, b] => simp at h3
  | a :: b :: c :: e :: rest => simp at h3

/-- Evaluating `get_game_info` when the table is present: its result is
decided by the date-conversion loop. -/
theorem get_game_info_some (resp : Response) (trs : List Row)
    (h : resp.table = some trs) :
    (get_game_info resp).2 =
      (match convertDates (get_table_info trs) with
        | none => Except.error ScrapeErr.dateParse
        | some gs => Except.ok gs) := by
  cases hc : convertDates (get_table_info trs) <;> simp [get_game_info, h, hc]

/-! ### Concrete fixtures -/

/-- The one URL `main` ever uses. -/
def mainUrl : String :=
  "https://www.basketball-reference.com/players/j/jamesle01/gamelog/2018/"

/-- The first game row of the known fixture page (§8 of the spec). -/
def fixtureRow : Row :=
  { classes := [], date_game := "2017-10-17", opp_id := "BOS", game_location := "" }

/-- A rate-limited response that nevertheless carries a parsable body. -/
def resp429 : Response :=
  { status_code := 429, url := mainUrl, table := some [fixtureRow] }

/-- The first fixture record `{date: (2017,10,17), location: HOME, opponent: "BOS"}`. -/
def fixtureGame : GameData :=
  { date := [2017, 10, 17], location := "Home", opponent := "BOS" }

/-- An away game against a mapped opponent. -/
def awayGameMIL : GameData :=
  { date := [2017, 10, 18], location := "Away", opponent := "MIL" }

/-- An away game whose opponent code is absent from `dict_teams`. -/
def badOppGame : GameData :=
  { date := [2017, 10, 19], location := "Away", opponent := "SEA" }

/-- A record whose status is neither `"Home"` nor `"Away"`. -/
def badStatusGame : GameData :=
  { date := [2017, 11, 1], location := "Neutral", opponent := "BOS" }

/-- A game row whose date text has only two dash-separated components. -/
def shortDateRow : Row :=
  { classes := [], date_game := "2017-10", opp_id := "MIL", game_location := "@" }

/-- A normal response whose only row carries the two-component date. -/
def respShort : Response :=
  { status_code := 200, url := mainUrl, table := some [shortDateRow] }

theorem get_game_info_ok {resp : Response} {gs : List GameData}
    (h : (get_game_info resp).2 = Except.ok gs) :
    ∃ trs, resp.table = some trs ∧ convertDates (get_table_info trs) = some gs := by
  cases ht : resp.table with
  | none => simp [get_game_info, ht] at h
  | some trs =>
      cases hc : convertDates (get_table_info trs) with
      | none => simp [get_game_info, ht, hc] at h
      | some gs0 =>
          simp [get_game_info, ht, hc] at h
          exact ⟨trs, rfl, by rw [hc, h]⟩

/-! ### Claims -/

/-- Claim C1 (refuted by the code, confirming a code bug): a response with
HTTP status 429 does NOT abort `get_game_info` — line 78 constructs
`requests.exceptions.HTTPError(...)` but never raises it, so only the error
log is written, parsing proceeds, and a subsequent export run writes a CSV
file.  The claim (and the code's own intent, per its log message and the
module docstring's rate-limit warning) says the run should abort with a
fetch error and write zero files. -/
theorem c1_rate_limit_not_fatal :
    get_game_info resp429 = ([rateLimitMsg mainUrl 429], Except.ok [fixtureGame]) ∧
    (scrape_games alwaysOkClient [fixtureGame] NumGames.noneArg 15).1 =
      [Event.mkdir pbpDir, Event.sleep 15, Event.info (writeMsg 2017 10 17),
        Event.exportCsv Team.CLEVELAND_CAVALIERS 2017 10 17 (homePath 2017 10 17)] :=
  ⟨rfl, rfl⟩

/-- Claim C2, counterexample: for the away record `[[2017,10,18], "Away",
"MIL"]` the produced filename is the literal `CLE` one — it is not the
spec-claimed filename carrying the opponent's code, and in particular does
not contain `MIL` at all. -/
theorem c2_counterexample :
    (scrape_games alwaysOkClient [awayGameMIL] NumGames.noneArg 15).1 =
      [Event.mkdir pbpDir, Event.sleep 15, Event.info (writeMsg 2017 10 18),
        Event.exportCsv Team.MILWAUKEE_BUCKS 2017 10 18 (awayPath 2017 10 18)] ∧
    awayPath 2017 10 18 = "pbp_games/2017_10_18_CLE_PBP_AWAY.csv" ∧
    awayPath 2017 10 18 ≠ spec_away_filename awayGameMIL 2017 10 18 ∧
    spec_away_filename awayGameMIL 2017 10 18 = "pbp_games/2017_10_18_MIL_PBP_AWAY.csv" :=
  ⟨by decide, by decide, by decide, by decide⟩

/-- Claim C2 as amended: the filename is
`pbp_games/{year}_{month}_{day}_CLE_PBP_{HOME|AWAY}.csv` for BOTH branches —
the home-franchise slot always holds the literal `CLE`; the opponent's
mapped team is used only as the client's `home_team` argument, never in the
filename. -/
theorem c2_filename_amended (client : ClientFun) (g : GameData) (y m d : Int)
    (t : Team) (hcl : ∀ tm, client tm y m d = true) :
    (g.location = "Home" →
      tryBlock client g y m d =
        [Event.exportCsv Team.CLEVELAND_CAVALIERS y m d (homePath y m d)]) ∧
    (g.location = "Away" → dict_teams g.opponent = some t →
      tryBlock client g y m d = [Event.exportCsv t y m d (awayPath y m d)]) := by
  constructor
  · intro h
    unfold tryBlock
    rw [h]
    simp [hcl]
  · intro h hm
    unfold tryBlock
    rw [h, hm]
    simp [hcl]

/-- Witness for C2's amended theorem at a concrete instance. -/
theorem c2_filename_amended_witness :
    (awayGameMIL.location = "Home" →
      tryBlock alwaysOkClient awayGameMIL 2017 10 18 =
        [Event.exportCsv Team.CLEVELAND_CAVALIERS 2017 10 18 (homePath 2017 10 18)]) ∧
    (awayGameMIL.location = "Away" →
      dict_teams awayGameMIL.opponent = some Team.MILWAUKEE_BUCKS →
      tryBlock alwaysOkClient awayGameMIL 2017 10 18 =
        [Event.exportCsv Team.MILWAUKEE_BUCKS 2017 10 18 (awayPath 2017 10 18)]) :=
  c2_filename_amended alwaysOkClient awayGameMIL 2017 10 18 Team.MILWAUKEE_BUCKS
    (fun _ => rfl)

/-- Claim C3, counterexample: `num_games = -1` is an `int`, so validation
accepts it; no `ConfigError` is raised, the delay IS incurred and a CSV IS
written — the negative value merely slices off the last record
(`game_data[:-1]`), so only the first of the two games is processed. -/
theorem c3_counterexample :
    scrape_games alwaysOkClient [fixtureGame, awayGameMIL] (NumGames.intArg (-1)) 15 =
      ([Event.mkdir pbpDir, Event.sleep 15, Event.info (writeMsg 2017 10 17),
        Event.exportCsv Team.CLEVELAND_CAVALIERS 2017 10 17 (homePath 2017 10 17)],
        Except.ok ()) :=
  rfl

/-- Claim C3 as amended: only a `num_games` that is neither `None` nor an
`int` fails fast with the `ValueError` (before the directory is created, any
delay is incurred, or any client call happens: the event list is empty); a
negative integer is accepted and Python's negative slice keeps all but the
last `|n|` records. -/
theorem c3_validation_amended (client : ClientFun) (gd : List GameData)
    (i n : Int) (hn : n < 0) :
    scrape_games client gd NumGames.otherArg i =
      ([], Except.error (PyExn.valueError configErrMsg)) ∧
    games_to_scrape gd (NumGames.intArg n) = gd.take (gd.length - (-n).toNat) := by
  constructor
  · rfl
  · simp [games_to_scrape, pySliceTo, not_le.mpr hn]

/-- Witness for C3's amended theorem at a concrete instance. -/
theorem c3_validation_amended_witness :
    (-1 : Int) < 0 ∧
    (scrape_games alwaysOkClient [fixtureGame, awayGameMIL] NumGames.otherArg 15 =
        ([], Except.error (PyExn.valueError configErrMsg)) ∧
      games_to_scrape [fixtureGame, awayGameMIL] (NumGames.intArg (-1)) =
        [fixtureGame, awayGameMIL].take
          ([fixtureGame, awayGameMIL].length - (-(-1 : Int)).toNat)) :=
  ⟨by decide,
    c3_validation_amended alwaysOkClient [fixtureGame, awayGameMIL] 15 (-1) (by decide)⟩

/-- Claim C4 (confirmed): a record whose opponent code is absent from
`dict_teams` makes the `dict_teams[game[2]]` lookup raise `KeyError` inside
the `try` block; the `except` clause logs it, that game produces no export,
and the loop finishes the whole batch — the surrounding records are
processed exactly as they would be on their own, and the run ends without
an exception. -/
theorem c4_unmapped_opponent_skipped (client : ClientFun) (i : Int)
    (pre post : List GameData) (g : GameData) (y m d : Int)
    (hpre : ∀ r ∈ pre, r.date.length = 3) (hpost : ∀ r ∈ post, r.date.length = 3)
    (hd : g.date = [y, m, d]) (hloc : g.location = "Away")
    (hmap : dict_teams g.opponent = none) :
    runGames client i (pre ++ g :: post) =
      ((pre.map (okEvents client i)).flatten ++
        (okEvents client i g ++ (post.map (okEvents client i)).flatten),
        Except.ok ()) ∧
    okEvents client i g =
      [Event.sleep i, Event.info (writeMsg y m d),
        Event.logError (ErrKind.keyError g.opponent)] := by
  have hg3 : g.date.length = 3 := by rw [hd]; rfl
  have hwf : ∀ r ∈ pre ++ g :: post, r.date.length = 3 := by
    intro r hr
    rcases List.mem_append.mp hr with h | h
    · exact hpre r h
    · rcases List.mem_cons.mp h with rfl | h
      · exact hg3
      · exact hpost r h
  constructor
  · rw [runGames_wf client i _ hwf]
    simp
  · simp only [okEvents, hd]
    unfold tryBlock
    rw [hloc, hmap]
    simp

/-- Witness for C4 at a concrete batch: a mapped home game, then the
unmapped `SEA` game, then a mapped away game. -/
theorem c4_unmapped_opponent_skipped_witness :
    (∀ r ∈ [fixtureGame], r.date.length = 3) ∧
    (∀ r ∈ [awayGameMIL], r.date.length = 3) ∧
    badOppGame.date = [2017, 10, 19] ∧
    badOppGame.location = "Away" ∧
    dict_teams badOppGame.opponent = none ∧
    (runGames alwaysOkClient 15 ([fixtureGame] ++ badOppGame :: [awayGameMIL]) =
        (([fixtureGame].map (okEvents alwaysOkClient 15)).flatten ++
          (okEvents alwaysOkClient 15 badOppGame ++
            ([awayGameMIL].map (okEvents alwaysOkClient 15)).flatten),
          Except.ok ()) ∧
      okEvents alwaysOkClient 15 badOppGame =
        [Event.sleep 15, Event.info (writeMsg 2017 10 19),
          Event.logError (ErrKind.keyError badOppGame.opponent)]) :=
  ⟨by decide, by decide, by decide, by decide, by decide,
    c4_unmapped_opponent_skipped alwaysOkClient 15 [fixtureGame] [awayGameMIL]
      badOppGame 2017 10 19 (by decide) (by decide) (by decide) (by decide) (by decide)⟩

/-- Claim C5 (confirmed): with a non-negative integer `num_games = n` the
loop runs over `game_data[:n]`, which is the order-preserving prefix of
`min n L` records (`slice ++ rest = input` shows it is a prefix); with
`num_games = None` it runs over the whole list.  The sleep count of the
trace counts the records actually visited. -/
theorem c5_truncation (client : ClientFun) (gd : List GameData) (n i : Int)
    (hn : 0 ≤ n) (hwf : ∀ g ∈ gd, g.date.length = 3) :
    games_to_scrape gd (NumGames.intArg n) = gd.take n.toNat ∧
    (games_to_scrape gd (NumGames.intArg n)).length = min n.toNat gd.length ∧
    gd.take n.toNat ++ gd.drop n.toNat = gd ∧
    games_to_scrape gd NumGames.noneArg = gd ∧
    countSleeps (scrape_games client gd (NumGames.intArg n) i).1 =
      min n.toNat gd.length ∧
    countSleeps (scrape_games client gd NumGames.noneArg i).1 = gd.length := by
  have hslice : games_to_scrape gd (NumGames.intArg n) = gd.take n.toNat := by
    simp [games_to_scrape, pySliceTo, hn]
  have htake : ∀ g ∈ games_to_scrape gd (NumGames.intArg n), g.date.length = 3 := by
    intro g hg
    rw [hslice] at hg
    exact hwf g (List.mem_of_mem_take hg)
  refine ⟨hslice, ?_, List.take_append_drop _ _, rfl, ?_, ?_⟩
  · rw [hslice]
    exact List.length_take _ _
  · rw [countSleeps_scrape client i gd (NumGames.intArg n) (by simp) htake, hslice]
    exact List.length_take _ _
  · rw [countSleeps_scrape client i gd NumGames.noneArg (by simp) hwf]
    rfl

/-- Witness for C5 at a concrete two-record list with `n = 1`. -/
theorem c5_truncation_witness :
    (0 : Int) ≤ 1 ∧ (∀ g ∈ [fixtureGame, awayGameMIL], g.date.length = 3) ∧
    (games_to_scrape [fixtureGame, awayGameMIL] (NumGames.intArg 1) =
        [fixtureGame, awayGameMIL].take (1 : Int).toNat ∧
      (games_to_scrape [fixtureGame, awayGameMIL] (NumGames.intArg 1)).length =
        min (1 : Int).toNat [fixtureGame, awayGameMIL].length ∧
      [fixtureGame, awayGameMIL].take (1 : Int).toNat ++
          [fixtureGame, awayGameMIL].drop (1 : Int).toNat =
        [fixtureGame, awayGameMIL] ∧
      games_to_scrape [fixtureGame, awayGameMIL] NumGames.noneArg =
        [fixtureGame, awayGameMIL] ∧
      countSleeps
          (scrape_games alwaysOkClient [fixtureGame, awayGameMIL]
            (NumGames.intArg 1) 15).1 =
        min (1 : Int).toNat [fixtureGame, awayGameMIL].length ∧
      countSleeps
          (scrape_games alwaysOkClient [fixtureGame, awayGameMIL]
            NumGames.noneArg 15).1 =
        [fixtureGame, awayGameMIL].length) :=
  ⟨by decide, by decide,
    c5_truncation alwaysOkClient [fixtureGame, awayGameMIL] 1 15 (by decide) (by decide)⟩

/-- Claim C6 (confirmed): `get_table_info` is exactly "drop the rows whose
class list contains `thead`, keep the rest in order and extract their
fields", so header rows never appear in the output and the output length is
the input row count minus the header row count. -/
theorem c6_header_rows_excluded (rows : List Row) :
    get_table_info rows =
      (rows.filter (fun r => !(r.classes.contains theadClass))).map extractRow ∧
    (get_table_info rows).length =
      rows.length - (rows.filter (fun r => r.classes.contains theadClass)).length :=
  ⟨get_table_info_eq rows, get_table_info_length rows⟩

/-- Claim C7, counterexample: the date text `"2017-10"` splits into two
integer-parsable components, and `get_game_info` accepts it, returning a
two-element date list instead of failing — the "exactly three" part of the
claim is not enforced anywhere. -/
theorem c7_counterexample :
    get_game_info respShort =
      ([], Except.ok [{ date := [2017, 10], location := "Away", opponent := "MIL" }]) ∧
    parseDate shortDateRow.date_game = some [2017, 10] :=
  ⟨rfl, rfl⟩

/-- Claim C7 as amended: the date conversion fails (with the `ValueError`
from `int`, aborting the whole run) exactly when some dash-separated
component of some surviving row's date text is not integer-parsable; when
every component parses, the resulting date list simply has one integer per
component, with no check that there are exactly three. -/
theorem c7_date_parse_amended (resp : Response) (trs : List Row)
    (h : resp.table = some trs) :
    ((get_game_info resp).2 = Except.error ScrapeErr.dateParse ↔
      ∃ r ∈ get_table_info trs, parseDate r.date = none) ∧
    (∀ s ds, parseDate s = some ds → ds.length = (pySplit s '-').length) ∧
    (∀ s, parseDate s = none ↔ ∃ c ∈ pySplit s '-', parsePyInt c = none) := by
  refine ⟨?_, ?_, ?_⟩
  · constructor
    · intro he
      cases hc : convertDates (get_table_info trs) with
      | none =>
          rcases mapOpt_eq_none.mp hc with ⟨r, hr, hfr⟩
          exact ⟨r, hr, Option.map_eq_none.mp hfr⟩
      | some gs =>
          rw [get_game_info_some resp trs h, hc] at he
          exact Except.noConfusion he
    · rintro ⟨r, hr, hnone⟩
      have hc : convertDates (get_table_info trs) = none :=
        mapOpt_eq_none.mpr ⟨r, hr, by rw [hnone]; rfl⟩
      rw [get_game_info_some resp trs h, hc]
  · intro s ds hds
    rw [mapOpt_some_length hds]
  · intro s
    exact mapOpt_eq_none

/-- Witness for C7's amended theorem at the two-component fixture. -/
theorem c7_date_parse_amended_witness :
    respShort.table = some [shortDateRow] ∧
    (((get_game_info respShort).2 = Except.error ScrapeErr.dateParse ↔
        ∃ r ∈ get_table_info [shortDateRow], parseDate r.date = none) ∧
      (∀ s ds, parseDate s = some ds → ds.length = (pySplit s '-').length) ∧
      (∀ s, parseDate s = none ↔ ∃ c ∈ pySplit s '-', parsePyInt c = none)) :=
  ⟨rfl, c7_date_parse_amended respShort [shortDateRow] rfl⟩

/-- Claim C8 (confirmed): every record produced by the parser has location
`"Home"` or `"Away"` — `get_table_info` writes `"Away"` exactly when the
location cell is `"@"` and `"Home"` otherwise, and the date conversion
leaves the field untouched — so the exporter's defensive
`raise ValueError("Invalid home/away status")` branch can never log on
parser output. -/
theorem c8_location_invariant (resp : Response) (gs : List GameData)
    (h : (get_game_info resp).2 = Except.ok gs) :
    ∀ g ∈ gs, (g.location = "Home" ∨ g.location = "Away") ∧
      ∀ client y m d, Event.logError ErrKind.invalidStatus ∉ tryBlock client g y m d := by
  rcases get_game_info_ok h with ⟨trs, htab, hc⟩
  intro g hg
  have hloc : g.location = "Home" ∨ g.location = "Away" := by
    rcases mapOpt_some_mem hc g hg with ⟨r, hr, hfr⟩
    cases hp : parseDate r.date with
    | none => rw [hp] at hfr; exact Option.noConfusion hfr
    | some ds =>
        rw [hp] at hfr
        simp only [Option.map_some', Option.some.injEq] at hfr
        have hl : g.location = r.location := by rw [← hfr]
        rw [hl, get_table_info_eq] at *
        rcases List.mem_map.mp hr with ⟨row, hrow, hex⟩
        rw [← hex]
        by_cases hat : (row.game_location == atSign) = true
        · right; simp [extractRow, hat]
        · left; simp [extractRow, hat]
  exact ⟨hloc, fun client y m d => tryBlock_no_invalid client g y m d hloc⟩

/-- Witness for C8 at the parsed fixture page. -/
theorem c8_location_invariant_witness :
    (get_game_info resp429).2 = Except.ok [fixtureGame] ∧
    ∀ g ∈ [fixtureGame], (g.location = "Home" ∨ g.location = "Away") ∧
      ∀ client y m d, Event.logError ErrKind.invalidStatus ∉ tryBlock client g y m d :=
  ⟨rfl, c8_location_invariant resp429 [fixtureGame] rfl⟩

/-- Claim C9 (confirmed): on an empty record list (with any integer
`num_games`, or `None`), `scrape_games` returns normally with a trace that
contains the `pbp_games` directory creation and nothing else: no sleep, no
client call, no log entry. -/
theorem c9_empty_records (client : ClientFun) (n i : Int) :
    scrape_games client [] (NumGames.intArg n) i =
      ([Event.mkdir pbpDir], Except.ok ()) ∧
    scrape_games client [] NumGames.noneArg i =
      ([Event.mkdir pbpDir], Except.ok ()) ∧
    countSleeps (scrape_games client [] (NumGames.intArg n) i).1 = 0 ∧
    ∀ t y m d p,
      Event.exportCsv t y m d p ∉ (scrape_games client [] (NumGames.intArg n) i).1 := by
  have h1 : scrape_games client [] (NumGames.intArg n) i =
      ([Event.mkdir pbpDir], Except.ok ()) := by
    show (Event.mkdir pbpDir ::
        (runGames client i (games_to_scrape [] (NumGames.intArg n))).1,
      (runGames client i (games_to_scrape [] (NumGames.intArg n))).2) = _
    rw [show games_to_scrape ([] : List GameData) (NumGames.intArg n) = [] from
      pySliceTo_nil n]
    rfl
  refine ⟨h1, rfl, ?_, ?_⟩
  · rw [h1]
    rfl
  · intro t y m d p
    rw [h1]
    simp

/-- Claim C10 (confirmed): on well-formed records every iteration's
failures are confined to the `try` block, so the loop finishes with no
exception, visits every record (one sleep each), and a record whose status
is neither `"Home"` nor `"Away"` only contributes the logged
`ValueError("Invalid home/away status")`. -/
theorem c10_loop_never_throws (client : ClientFun) (gd : List GameData) (i : Int)
    (hne : gd ≠ []) (hwf : ∀ g ∈ gd, g.date.length = 3) :
    (scrape_games client gd NumGames.noneArg i).2 = Except.ok () ∧
    countSleeps (scrape_games client gd NumGames.noneArg i).1 = gd.length ∧
    ∀ g ∈ gd, g.location ≠ "Home" → g.location ≠ "Away" →
      Event.logError ErrKind.invalidStatus ∈
        (scrape_games client gd NumGames.noneArg i).1 := by
  have hrun := runGames_wf client i gd hwf
  have hs : scrape_games client gd NumGames.noneArg i =
      (Event.mkdir pbpDir :: (runGames client i gd).1, (runGames client i gd).2) := rfl
  refine ⟨?_, ?_, ?_⟩
  · rw [hs, hrun]
  · rw [countSleeps_scrape client i gd NumGames.noneArg (by simp) hwf]
    rfl
  · intro g hg h1 h2
    rw [hs, hrun]
    apply List.mem_cons_of_mem
    show Event.logError ErrKind.invalidStatus ∈ (gd.map (okEvents client i)).flatten
    rw [List.mem_flatten]
    exact ⟨okEvents client i g, List.mem_map_of_mem _ hg,
      okEvents_invalid client i g (hwf g hg) h1 h2⟩

/-- Witness for C10 at a batch containing a `"Neutral"`-status record. -/
theorem c10_loop_never_throws_witness :
    [fixtureGame, badStatusGame, awayGameMIL] ≠ [] ∧
    (∀ g ∈ [fixtureGame, badStatusGame, awayGameMIL], g.date.length = 3) ∧
    ((scrape_games alwaysOkClient [fixtureGame, badStatusGame, awayGameMIL]
        NumGames.noneArg 15).2 = Except.ok () ∧
      countSleeps (scrape_games alwaysOkClient [fixtureGame, badStatusGame, awayGameMIL]
        NumGames.noneArg 15).1 = [fixtureGame, badStatusGame, awayGameMIL].length ∧
      ∀ g ∈ [fixtureGame, badStatusGame, awayGameMIL],
        g.location ≠ "Home" → g.location ≠ "Away" →
        Event.logError ErrKind.invalidStatus ∈
          (scrape_games alwaysOkClient [fixtureGame, badStatusGame, awayGameMIL]
            NumGames.noneArg 15).1) :=
  ⟨by decide, by decide,
    c10_loop_never_throws alwaysOkClient [fixtureGame, badStatusGame, awayGameMIL] 15
      (by decide) (by decide)⟩

end GameScraper
